import Mathlib

/-!
Shallow embedding of the vote submission pipeline of the mobile voting client:
the coordinator in services/vote-submission.service.ts and the ledger client in
lib/blockchain/real-blockchain-service.ts. External effects (HTTP fetches, the
JSON-RPC provider, Date.now, Math.random, setTimeout) are passed in explicitly
as environment values, so every submission attempt is a pure function of its
inputs and the theorems below range over all environments.
-/

namespace VoteApp

/-- Status enum of VoteSubmissionStatus.status in vote-submission.service.ts. -/
inductive SubmissionStatus where
  | pending
  | processing
  | confirmed
  | failed
  | rejected
  deriving DecidableEq

/-- VoteSubmissionRequest from vote-submission.service.ts. The fields
voterAddress and token are absent from the declared interface but are read
dynamically by validateSubmission and submitToBlockchain, so they are
modelled as optional fields. Timestamps are JS millisecond values. -/
structure VoteSubmissionRequest where
  electionId : String
  candidateId : String
  voterId : String
  verificationCode : String
  biometricHash : String
  deviceId : String
  timestamp : Int
  voterAddress : Option String := none
  token : Option String := none
  deriving DecidableEq

/-- VoteSubmissionStatus record kept in the statusCache. -/
structure VoteSubmissionStatus where
  voteId : String
  status : SubmissionStatus
  transactionHash : Option String := none
  blockNumber : Option Nat := none
  confirmationCount : Option Nat := none
  error : Option String := none
  submittedAt : Int
  confirmedAt : Option Int := none
  deriving DecidableEq

/-- VoteSubmissionResponse returned by submitVote. -/
structure VoteSubmissionResponse where
  success : Bool
  voteId : Option String := none
  transactionHash : Option String := none
  blockNumber : Option Nat := none
  confirmationId : Option String := none
  message : Option String := none
  error : Option String := none
  retryAfter : Option Nat := none
  deriving DecidableEq

/-- Lookup in an association list, modelling JS Map.get. -/
def lookupKey {α : Type} (k : String) : List (String × α) → Option α
  | [] => none
  | (k', v) :: rest => if k' = k then some v else lookupKey k rest

/-- Replace-or-append update of an association list, modelling JS Map.set. -/
def setKey {α : Type} (k : String) (v : α) : List (String × α) → List (String × α)
  | [] => [(k, v)]
  | (k', v') :: rest => if k' = k then (k, v) :: rest else (k', v') :: setKey k v rest

/-- Removal from an association list, modelling JS Map.delete. -/
def delKey {α : Type} (k : String) : List (String × α) → List (String × α)
  | [] => []
  | (k', v) :: rest => if k' = k then delKey k rest else (k', v) :: delKey k rest

theorem lookupKey_setKey_self {α : Type} (k : String) (v : α) (m : List (String × α)) :
    lookupKey k (setKey k v m) = some v := by
  induction m with
  | nil => simp [setKey, lookupKey]
  | cons p rest ih =>
    obtain ⟨k', v'⟩ := p
    by_cases h : k' = k
    · simp [setKey, lookupKey, h]
    · simp [setKey, lookupKey, h, ih]

theorem lookupKey_setKey_ne {α : Type} {k k' : String} (v : α) (m : List (String × α))
    (h : k' ≠ k) : lookupKey k' (setKey k v m) = lookupKey k' m := by
  induction m with
  | nil => simp [setKey, lookupKey, Ne.symm h]
  | cons p rest ih =>
    obtain ⟨k'', v''⟩ := p
    by_cases hk : k'' = k
    · subst hk
      simp [setKey, lookupKey, Ne.symm h]
    · simp [setKey, lookupKey, hk, ih]

theorem lookupKey_delKey_self {α : Type} (k : String) (m : List (String × α)) :
    lookupKey k (delKey k m) = none := by
  induction m with
  | nil => simp [delKey, lookupKey]
  | cons p rest ih =>
    obtain ⟨k', v'⟩ := p
    by_cases h : k' = k
    · simp [delKey, h, ih]
    · simp [delKey, lookupKey, h, ih]

theorem lookupKey_delKey_ne {α : Type} {k k' : String} (m : List (String × α))
    (h : k' ≠ k) : lookupKey k' (delKey k m) = lookupKey k' m := by
  induction m with
  | nil => simp [delKey, lookupKey]
  | cons p rest ih =>
    obtain ⟨k'', v''⟩ := p
    by_cases hk : k'' = k
    · subst hk
      simp [delKey, lookupKey, Ne.symm h, ih]
    · simp [delKey, lookupKey, hk, ih]

/-- Outcome of an external call that can throw, as seen by a try/catch block. -/
inductive CallOutcome (α : Type) where
  | ok (value : α)
  | threw (message : String)
  deriving DecidableEq

/-- Environment of RealBlockchainService for read-only queries: whether the
JSON-RPC provider was initialized, and what the voters(address) contract call
does for each pair of contract address and voter address. -/
structure LedgerProbe where
  providerInitialized : Bool
  votersQuery : String → String → CallOutcome Bool

/-- hasVoterVoted from real-blockchain-service.ts lines 394 to 414: inside a
try block it throws when the provider is not initialized, otherwise performs
the voters(address) contract call; the catch handler turns every throw into a
plain false return value. -/
def hasVoterVoted (probe : LedgerProbe) (contractAddress voterAddress : String) : Bool :=
  if probe.providerInitialized then
    match probe.votersQuery contractAddress voterAddress with
    | .ok b => b
    | .threw _ => false
  else
    false

/-- isVoterRegistered from real-blockchain-service.ts lines 370 to 389: same
shape as hasVoterVoted, returning false on provider absence or on a throw. -/
def isVoterRegistered (probe : LedgerProbe) (contractAddress voterAddress : String) : Bool :=
  if probe.providerInitialized then
    match probe.votersQuery contractAddress voterAddress with
    | .ok b => b
    | .threw _ => false
  else
    false

/-- C10: for every contract address and voter address, hasVoterVoted never
propagates an error to its caller: whenever the provider is uninitialized or
the underlying contract call throws, it returns false, so a failed
duplicate-vote check is indistinguishable from a report that the voter has
not voted. -/
theorem hasVoterVoted_error_returns_false (probe : LedgerProbe)
    (contractAddress voterAddress : String)
    (h : probe.providerInitialized = false ∨
      ∃ msg, probe.votersQuery contractAddress voterAddress = .threw msg) :
    hasVoterVoted probe contractAddress voterAddress = false := by
  rcases h with h | ⟨msg, h⟩
  · simp [hasVoterVoted, h]
  · by_cases hp : probe.providerInitialized
    · simp [hasVoterVoted, hp, h]
    · simp [hasVoterVoted, hp]

/-- A probe whose provider is up but whose contract call always throws. -/
def probeConnRefused : LedgerProbe :=
  { providerInitialized := true
    votersQuery := fun _ _ => .threw "ECONNREFUSED" }

/-- Witness for hasVoterVoted_error_returns_false at a concrete throwing
probe and concrete addresses. -/
theorem hasVoterVoted_error_returns_false_witness :
    hasVoterVoted probeConnRefused "0xC" "0xA" = false :=
  hasVoterVoted_error_returns_false probeConnRefused "0xC" "0xA"
    (Or.inr ⟨"ECONNREFUSED", rfl⟩)

/-- Decimal digit test on a character code. -/
def jsIsDigit (c : Char) : Bool :=
  48 ≤ c.toNat && c.toNat ≤ 57

/-- Leading whitespace removal, as parseInt performs before parsing. -/
def jsTrimLeft : List Char → List Char
  | [] => []
  | c :: rest =>
    if c = ' ' ∨ c = '\t' ∨ c = '\n' ∨ c = '\r' then jsTrimLeft rest else c :: rest

/-- Longest leading run of decimal digits. -/
def jsDigits : List Char → List Char
  | [] => []
  | c :: rest => if jsIsDigit c then c :: jsDigits rest else []

/-- Value of a digit prefix; none when the prefix is empty (NaN). -/
def jsDigitsVal (cs : List Char) : Option Nat :=
  match jsDigits cs with
  | [] => none
  | d :: ds => some ((d :: ds).foldl (fun n c => n * 10 + (c.toNat - 48)) 0)

/-- Model of JS parseInt on a decimal string: skips leading whitespace,
accepts an optional sign, then reads the longest digit prefix; NaN (none)
when that prefix is empty. Used by castVote in real-blockchain-service.ts
line 299. -/
def jsParseInt (s : String) : Option Int :=
  match jsTrimLeft s.data with
  | '-' :: rest => (jsDigitsVal rest).map (fun n => -(n : Int))
  | '+' :: rest => (jsDigitsVal rest).map (fun n => (n : Int))
  | t => (jsDigitsVal t).map (fun n => (n : Int))

/-- Digit characters 0-9 then a-z, as produced by Number.toString(36). -/
def base36DigitChar (d : Nat) : Char :=
  if d < 10 then Char.ofNat (48 + d) else Char.ofNat (87 + d)

/-- Fuel-bounded base-36 digit accumulation; fuel n is enough for value n. -/
def natToBase36Go : Nat → Nat → List Char → List Char
  | 0, _, acc => acc
  | _ + 1, n, acc =>
    if h : n = 0 then acc
    else natToBase36Go (n - 1) (n / 36) (base36DigitChar (n % 36) :: acc)

/-- Base-36 rendering of a Nat, as Number.toString(36) renders it. -/
def natToBase36 (n : Nat) : String :=
  if n = 0 then "0" else String.mk (natToBase36Go n n [])

/-- generateSubmissionId from vote-submission.service.ts lines 446 to 450:
vote_ then the request timestamp in base 36, an underscore, and a six
character random suffix. The random suffix is an explicit input. -/
def generateSubmissionId (timestamp : Int) (randomSuffix : String) : String :=
  let body :=
    if timestamp < 0 then "-" ++ natToBase36 timestamp.natAbs
    else natToBase36 timestamp.natAbs
  "vote_" ++ body ++ "_" ++ randomSuffix

theorem string_append_left_cancel (p r₁ r₂ : String) (h : p ++ r₁ = p ++ r₂) :
    r₁ = r₂ := by
  obtain ⟨dp⟩ := p
  obtain ⟨d₁⟩ := r₁
  obtain ⟨d₂⟩ := r₂
  have hd : dp ++ d₁ = dp ++ d₂ := congrArg String.data h
  have hdd := List.append_cancel_left hd
  exact congrArg String.mk hdd

/-- Distinct random suffixes give distinct submission ids for one request. -/
theorem generateSubmissionId_suffix_inj (timestamp : Int) (r₁ r₂ : String)
    (h : generateSubmissionId timestamp r₁ = generateSubmissionId timestamp r₂) :
    r₁ = r₂ := by
  unfold generateSubmissionId at h
  exact string_append_left_cancel _ _ _ h

/-- BlockchainVoteResponse from real-blockchain-service.ts. -/
structure BlockchainVoteResponse where
  success : Bool
  transactionHash : Option String := none
  blockNumber : Option Nat := none
  gasUsed : Option String := none
  error : Option String := none
  deriving DecidableEq

/-- Environment of one submitToBlockchain run: results of the election fetch,
the profile fetch, wallet connection, and the three contract interactions,
in the order the source consults them. The two read queries are given as
already-masked booleans because hasVoterVoted and isVoterRegistered return
plain booleans and map their own errors to false. -/
structure ChainEnv where
  electionFetchOk : Bool
  contractAddress : Option String
  profileFetchOk : Bool
  encryptedPrivateKey : Option String
  connectWallet : CallOutcome String
  hasVotedOnBlockchain : Bool
  isRegistered : Bool
  registerVoterResult : BlockchainVoteResponse
  castVoteResult : BlockchainVoteResponse
  deriving DecidableEq

/-- Result of submitToBlockchain as consumed by submitVote. -/
structure ChainResult where
  success : Bool
  transactionHash : Option String := none
  blockNumber : Option Nat := none
  error : Option String := none
  deriving DecidableEq

/-- Ledger interactions of one attempt, in call order: the duplicate-vote
query, the registration query, and the two state-changing transactions. -/
inductive LedgerEvent where
  | hasVotedQuery (result : Bool)
  | isRegisteredQuery (result : Bool)
  | registerVoterTx (success : Bool)
  | castVoteTx (success : Bool)
  deriving DecidableEq

/-- Tail of submitToBlockchain from line 327: castVote parses the candidate
id (parseInt, error on NaN before any transaction) and then sends the vote
transaction; on receipt the coordinator result carries txHash and block. -/
def castPhase (req : VoteSubmissionRequest) (env : ChainEnv)
    (evs : List LedgerEvent) : ChainResult × List LedgerEvent :=
  if (jsParseInt req.candidateId).isNone then
    ({ success := false, error := some "Vote casting failed: Invalid candidate ID" }, evs)
  else if env.castVoteResult.success then
    ({ success := true, transactionHash := env.castVoteResult.transactionHash,
       blockNumber := env.castVoteResult.blockNumber },
     evs ++ [.castVoteTx true])
  else
    ({ success := false,
       error := some ("Vote casting failed: " ++ env.castVoteResult.error.getD "") },
     evs ++ [.castVoteTx false])

/-- submitToBlockchain from vote-submission.service.ts lines 246 to 358:
fetch the election contract address, fetch the wallet material, connect the
wallet, fail permanently on hasVoterVoted, register the voter when the
registration query says unregistered, then cast the vote. Every throw is
caught and returned as a failure result. The second component records the
ledger interactions the run performed, in order. -/
def submitToBlockchain (req : VoteSubmissionRequest) (env : ChainEnv) :
    ChainResult × List LedgerEvent :=
  if env.electionFetchOk then
    match env.contractAddress with
    | none => ({ success := false, error := some "Election contract address not found" }, [])
    | some _contract =>
      if env.profileFetchOk then
        match env.encryptedPrivateKey with
        | none =>
          ({ success := false,
             error := some "User wallet not found. Please contact administrator." }, [])
        | some _key =>
          match env.connectWallet with
          | .threw msg =>
            ({ success := false, error := some ("Failed to connect wallet: " ++ msg) }, [])
          | .ok _addr =>
            if env.hasVotedOnBlockchain then
              ({ success := false,
                 error := some "You have already voted in this election on the blockchain" },
               [.hasVotedQuery true])
            else if env.isRegistered then
              castPhase req env [.hasVotedQuery false, .isRegisteredQuery true]
            else if env.registerVoterResult.success then
              castPhase req env
                [.hasVotedQuery false, .isRegisteredQuery false, .registerVoterTx true]
            else
              ({ success := false,
                 error := some ("Voter registration failed: "
                   ++ env.registerVoterResult.error.getD "") },
               [.hasVotedQuery false, .isRegisteredQuery false, .registerVoterTx false])
      else
        ({ success := false, error := some "Failed to get user profile" }, [])
  else
    ({ success := false, error := some "Failed to get election details" }, [])

theorem castPhase_snd (req : VoteSubmissionRequest) (env : ChainEnv)
    (evs : List LedgerEvent) :
    (castPhase req env evs).2 = evs ∨
      (castPhase req env evs).2 = evs ++ [.castVoteTx env.castVoteResult.success] := by
  unfold castPhase
  by_cases h1 : (jsParseInt req.candidateId).isNone
  · left
    simp [h1]
  · by_cases h2 : env.castVoteResult.success
    · right
      simp [h1, h2]
    · right
      have h2' : env.castVoteResult.success = false := by
        simpa using h2
      simp [h1, h2']

/-- Every trace submitToBlockchain can produce, by cases on the environment:
nothing, a failed duplicate check, a failed registration, or one of the two
registration-first prefixes optionally followed by the vote transaction. -/
theorem submitToBlockchain_snd_cases (req : VoteSubmissionRequest) (env : ChainEnv) :
    (submitToBlockchain req env).2 = [] ∨
    (submitToBlockchain req env).2 = [.hasVotedQuery true] ∨
    (submitToBlockchain req env).2
      = [.hasVotedQuery false, .isRegisteredQuery false, .registerVoterTx false] ∨
    (∃ evs0, (evs0 = [LedgerEvent.hasVotedQuery false, LedgerEvent.isRegisteredQuery true] ∨
        evs0 = [LedgerEvent.hasVotedQuery false, LedgerEvent.isRegisteredQuery false,
          LedgerEvent.registerVoterTx true]) ∧
      ((submitToBlockchain req env).2 = evs0 ∨
        (submitToBlockchain req env).2
          = evs0 ++ [LedgerEvent.castVoteTx env.castVoteResult.success])) := by
  unfold submitToBlockchain
  by_cases h1 : env.electionFetchOk
  · rcases hca : env.contractAddress with _ | ca
    · simp [h1, hca]
    · by_cases h2 : env.profileFetchOk
      · rcases hpk : env.encryptedPrivateKey with _ | pk
        · simp [h1, hca, h2, hpk]
        · rcases hcw : env.connectWallet with addr | msg
          · by_cases h3 : env.hasVotedOnBlockchain
            · simp [h1, hca, h2, hpk, hcw, h3]
            · by_cases h4 : env.isRegistered
              · refine Or.inr (Or.inr (Or.inr ⟨_, Or.inl rfl, ?_⟩))
                simp only [h1, hca, h2, hpk, hcw, h3, h4]
                simpa using castPhase_snd req env
                  [.hasVotedQuery false, .isRegisteredQuery true]
              · by_cases h5 : env.registerVoterResult.success
                · refine Or.inr (Or.inr (Or.inr ⟨_, Or.inr rfl, ?_⟩))
                  simp only [h1, hca, h2, hpk, hcw, h3, h4, h5]
                  simpa using castPhase_snd req env
                    [.hasVotedQuery false, .isRegisteredQuery false, .registerVoterTx true]
                · simp [h1, hca, h2, hpk, hcw, h3, h4, h5]
          · simp [h1, hca, h2, hpk, hcw]
      · simp [h1, hca, h2]
  · simp [h1]

/-- C5: in every execution of the ledger-commit step, if the vote-commit
call occurs in the trace then earlier in that same trace the registration
query returned true or a registerVoter transaction completed successfully;
a vote is never committed for an identity not seen as registered. -/
theorem castVote_only_after_registration (req : VoteSubmissionRequest)
    (env : ChainEnv) (b : Bool)
    (hmem : LedgerEvent.castVoteTx b ∈ (submitToBlockchain req env).2) :
    ∃ pre post, (submitToBlockchain req env).2 = pre ++ LedgerEvent.castVoteTx b :: post ∧
      (LedgerEvent.isRegisteredQuery true ∈ pre ∨ LedgerEvent.registerVoterTx true ∈ pre) := by
  rcases submitToBlockchain_snd_cases req env with h | h | h | ⟨evs0, hevs0, h | h⟩
  · rw [h] at hmem
    simp at hmem
  · rw [h] at hmem
    simp at hmem
  · rw [h] at hmem
    simp at hmem
  · rw [h] at hmem
    rcases hevs0 with h0 | h0 <;> rw [h0] at hmem <;> simp at hmem
  · rw [h] at hmem
    rcases hevs0 with h0 | h0
    · rw [h0] at hmem
      simp at hmem
      refine ⟨evs0, [], ?_, Or.inl ?_⟩
      · rw [h, hmem]
      · rw [h0]
        simp
    · rw [h0] at hmem
      simp at hmem
      refine ⟨evs0, [], ?_, Or.inr ?_⟩
      · rw [h, hmem]
      · rw [h0]
        simp

/-- checkExistingVote from vote-submission.service.ts lines 394 to 398: the
body only awaits a 100 ms delay and then returns false for every input; the
database duplicate check is a stub. -/
def checkExistingVote (_electionId _voterId : String) : Bool :=
  false

/-- Result of validateSubmission. -/
inductive ValidationResult where
  | valid
  | invalid (message : String)
  deriving DecidableEq

/-- Environment of one validateSubmission run: Date.now at the freshness
check, and the fast-path blockchain pre-check collaborators (election fetch,
contract address, a thrown exception anywhere in the try block, and the
hasVoterVoted answer when the check is reached). -/
structure ValidationEnv where
  now : Int
  electionFetchOk : Bool
  contractAddress : Option String
  preCheckThrew : Bool
  hasVotedOnBlockchain : Bool
  deriving DecidableEq

/-- validateSubmission from vote-submission.service.ts lines 176 to 241:
field presence checks, six character verification code, security
credentials, a five minute freshness window on the request timestamp, the
stubbed database duplicate check, and the fast-path blockchain duplicate
pre-check that silently continues whenever it cannot complete. -/
def validateSubmission (req : VoteSubmissionRequest) (env : ValidationEnv) :
    ValidationResult :=
  if req.electionId = "" ∨ req.candidateId = "" ∨ req.voterId = "" then
    .invalid "Missing required fields"
  else if req.verificationCode = "" ∨ req.verificationCode.length ≠ 6 then
    .invalid "Invalid verification code"
  else if req.biometricHash = "" ∨ req.deviceId = "" then
    .invalid "Missing security credentials"
  else if env.now - req.timestamp > 5 * 60 * 1000 then
    .invalid "Submission expired"
  else if checkExistingVote req.electionId req.voterId then
    .invalid "User has already voted in this election"
  else
    match req.voterAddress with
    | none => .valid
    | some _addr =>
      if req.electionId ≠ "" then
        if env.preCheckThrew then .valid
        else if env.electionFetchOk then
          match env.contractAddress with
          | some _c =>
            if env.hasVotedOnBlockchain then
              .invalid "You have already voted in this election on the blockchain"
            else .valid
          | none => .valid
        else .valid
      else .valid

/-- Result of submitToBackend as consumed by submitVote. -/
structure BackendResult where
  success : Bool
  confirmationId : Option String := none
  error : Option String := none
  deriving DecidableEq

/-- submitToBackend from vote-submission.service.ts lines 363 to 389: after
a simulated delay it builds confirmationId from Date.now and the candidate
id, then simulates a 98 percent success rate with Math.random; the failure
branch throws Backend service unavailable, caught into an error result.
Date.now and the Math.random comparison outcome are explicit inputs. -/
def submitToBackend (req : VoteSubmissionRequest) (_transactionHash : String)
    (now : Int) (randomAbove : Bool) : BackendResult :=
  let confirmationId := "confirm_" ++ toString now ++ "_" ++ req.candidateId
  if randomAbove then
    { success := true, confirmationId := some confirmationId }
  else
    { success := false, error := some "Backend service unavailable" }

/-- Private mutable state of the VoteSubmissionService singleton. -/
structure ServiceState where
  submissionQueue : List (String × VoteSubmissionRequest) := []
  statusCache : List (String × VoteSubmissionStatus) := []
  retryAttempts : List (String × Nat) := []
  maxRetries : Nat := 3
  retryDelay : Nat := 5000
  deriving DecidableEq

/-- updateStatus from vote-submission.service.ts lines 432 to 441: patch the
cached record only when one exists, first setting the status field and then
applying the spread updates. -/
def updateStatus (cache : List (String × VoteSubmissionStatus)) (voteId : String)
    (status : SubmissionStatus)
    (updates : VoteSubmissionStatus → VoteSubmissionStatus) :
    List (String × VoteSubmissionStatus) :=
  match lookupKey voteId cache with
  | none => cache
  | some cur => setKey voteId (updates { cur with status := status }) cache

theorem lookupKey_updateStatus_self (cache : List (String × VoteSubmissionStatus))
    (voteId : String) (status : SubmissionStatus)
    (updates : VoteSubmissionStatus → VoteSubmissionStatus) :
    lookupKey voteId (updateStatus cache voteId status updates)
      = (lookupKey voteId cache).map (fun cur => updates { cur with status := status }) := by
  unfold updateStatus
  cases h : lookupKey voteId cache with
  | none => simp [h]
  | some cur => simp [h, lookupKey_setKey_self]

theorem lookupKey_updateStatus_ne (cache : List (String × VoteSubmissionStatus))
    {voteId sid : String} (status : SubmissionStatus)
    (updates : VoteSubmissionStatus → VoteSubmissionStatus) (h : sid ≠ voteId) :
    lookupKey sid (updateStatus cache voteId status updates) = lookupKey sid cache := by
  unfold updateStatus
  cases hl : lookupKey voteId cache with
  | none => rfl
  | some cur => simp [lookupKey_setKey_ne _ _ h]

/-- Outcome of one submitVote call: the mutated service state, the returned
response, the delay of the setTimeout retry when one was scheduled, and the
ledger interactions performed. -/
structure SubmissionOutcome where
  state : ServiceState
  response : VoteSubmissionResponse
  retryScheduledAfter : Option Nat
  ledgerEvents : List LedgerEvent

/-- Catch block of submitVote, lines 122 to 153: mark the record failed with
the error message, then read the retry counter for this submission id; below
maxRetries, bump the counter and schedule a retry after retryDelay times
(retryCount plus one) milliseconds; otherwise drop the submission from the
queue and the counters and return the terminal failure. -/
def handleFailure (st : ServiceState) (sid errorMessage : String)
    (evs : List LedgerEvent) : SubmissionOutcome :=
  let stF : ServiceState :=
    { st with statusCache :=
        updateStatus st.statusCache sid .failed (fun s => { s with error := some errorMessage }) }
  let retryCount := (lookupKey sid st.retryAttempts).getD 0
  if retryCount < st.maxRetries then
    let delay := st.retryDelay * (retryCount + 1)
    let stR : ServiceState := { stF with retryAttempts := setKey sid (retryCount + 1) stF.retryAttempts }
    let resp : VoteSubmissionResponse := { success := false, error := some errorMessage, retryAfter := some delay }
    { state := stR, response := resp, retryScheduledAfter := some delay, ledgerEvents := evs }
  else
    let stD : ServiceState := { stF with submissionQueue := delKey sid stF.submissionQueue, retryAttempts := delKey sid stF.retryAttempts }
    let resp : VoteSubmissionResponse := { success := false, error := some errorMessage }
    { state := stD, response := resp, retryScheduledAfter := none, ledgerEvents := evs }

/-- Environment of one submitVote call: the generated submission id, the
Date.now samples observed along the way, and the collaborator outcomes. -/
structure AttemptEnv where
  newId : String
  now : Int
  validation : ValidationEnv
  chain : ChainEnv
  backendNow : Int
  backendRandomAbove : Bool
  confirmNow : Int
  deriving DecidableEq

/-- submitVote from vote-submission.service.ts lines 64 to 154, as one pure
attempt: enqueue the request and a pending record under the generated id,
validate, move to processing, run the ledger commit and then the backend
confirmation, and either record the confirmed result and drop the queue
entry, or fall into the catch block modelled by handleFailure. The retry the
catch block schedules via setTimeout is returned in retryScheduledAfter and
performed by a later retrySubmission call. -/
def submitVoteStep (st : ServiceState) (req : VoteSubmissionRequest)
    (env : AttemptEnv) : SubmissionOutcome :=
  let sid := env.newId
  let pendingRec : VoteSubmissionStatus := { voteId := sid, status := .pending, submittedAt := env.now }
  let st1 : ServiceState :=
    { st with submissionQueue := setKey sid req st.submissionQueue, statusCache := setKey sid pendingRec st.statusCache }
  match validateSubmission req env.validation with
  | .invalid msg => handleFailure st1 sid msg []
  | .valid =>
    let st2 : ServiceState :=
      { st1 with statusCache := updateStatus st1.statusCache sid .processing (fun s => s) }
    let chainOut := submitToBlockchain req env.chain
    if chainOut.1.success then
      let backres := submitToBackend req (chainOut.1.transactionHash.getD "")
        env.backendNow env.backendRandomAbove
      if backres.success then
        let patch : VoteSubmissionStatus → VoteSubmissionStatus := fun s =>
          { s with transactionHash := chainOut.1.transactionHash,
                   blockNumber := chainOut.1.blockNumber, confirmationCount := some 1,
                   confirmedAt := some env.confirmNow }
        let st3 : ServiceState :=
          { st2 with statusCache := updateStatus st2.statusCache sid .confirmed patch }
        let st4 : ServiceState :=
          { st3 with submissionQueue := delKey sid st3.submissionQueue, retryAttempts := delKey sid st3.retryAttempts }
        let resp : VoteSubmissionResponse :=
          { success := true, voteId := some sid,
            transactionHash := chainOut.1.transactionHash,
            blockNumber := chainOut.1.blockNumber,
            confirmationId := backres.confirmationId,
            message := some "Vote submitted successfully" }
        { state := st4, response := resp, retryScheduledAfter := none, ledgerEvents := chainOut.2 }
      else
        handleFailure st2 sid (backres.error.getD "Backend submission failed") chainOut.2
    else
      handleFailure st2 sid (chainOut.1.error.getD "Blockchain submission failed") chainOut.2

/-- retrySubmission from lines 159 to 171: look the id up in the submission
queue and, when present, run submitVote again on the stored request; a
missing id makes the retry a no-op (none). -/
def retrySubmission (st : ServiceState) (sid : String) (env : AttemptEnv) :
    Option SubmissionOutcome :=
  (lookupKey sid st.submissionQueue).map (fun req => submitVoteStep st req env)

/-- cancelSubmission from lines 419 to 427: succeeds exactly when the id is
still in the submission queue, deleting it from the queue and the retry
counters and marking the cached record rejected; otherwise returns false
without touching anything. -/
def cancelSubmission (st : ServiceState) (voteId : String) : ServiceState × Bool :=
  if (lookupKey voteId st.submissionQueue).isSome then
    let st' : ServiceState :=
      { st with submissionQueue := delKey voteId st.submissionQueue,
                retryAttempts := delKey voteId st.retryAttempts,
                statusCache := updateStatus st.statusCache voteId .rejected (fun s => s) }
    (st', true)
  else
    (st, false)

/-- A well-formed concrete request used by the concrete scenarios below. -/
def reqFixed : VoteSubmissionRequest :=
  { electionId := "e1", candidateId := "12", voterId := "v1",
    verificationCode := "123456", biometricHash := "bh", deviceId := "d1",
    timestamp := 0 }

/-- Validation environment with a fresh clock and no pre-check collaborators. -/
def valEnv0 : ValidationEnv :=
  { now := 0, electionFetchOk := false, contractAddress := none,
    preCheckThrew := false, hasVotedOnBlockchain := false }

/-- Chain environment in which every collaborator behaves. -/
def okChain : ChainEnv :=
  { electionFetchOk := true, contractAddress := some "0xC", profileFetchOk := true,
    encryptedPrivateKey := some "k", connectWallet := .ok "0xA",
    hasVotedOnBlockchain := false, isRegistered := true,
    registerVoterResult := { success := true },
    castVoteResult := { success := true, transactionHash := some "0xT1", blockNumber := some 7 } }

/-- Chain environment in which the election fetch is down, so the attempt
fails before any ledger interaction; the backend being unreachable is a
transient infrastructure failure. -/
def failChain : ChainEnv := { okChain with electionFetchOk := false }

/-- Chain environment in which the ledger reports the voter as having voted. -/
def alreadyVotedChain : ChainEnv := { okChain with hasVotedOnBlockchain := true }

/-- Attempt environment with the given fresh submission id and chain
behaviour, fresh clocks, and a successful backend draw. -/
def envOf (sid : String) (chain : ChainEnv) : AttemptEnv :=
  { newId := sid, now := 0, validation := valEnv0, chain := chain,
    backendNow := 0, backendRandomAbove := true, confirmNow := 0 }

/-- Witness for castVote_only_after_registration: in the healthy environment
the cast event really occurs, after a positive registration query. -/
theorem castVote_only_after_registration_witness :
    ∃ pre post, (submitToBlockchain reqFixed okChain).2
        = pre ++ LedgerEvent.castVoteTx true :: post ∧
      (LedgerEvent.isRegisteredQuery true ∈ pre ∨ LedgerEvent.registerVoterTx true ∈ pre) :=
  castVote_only_after_registration reqFixed okChain true (by decide)

/-- Counterexample to C2 as stated: with the ledger reporting the voter as
having already voted, submitVote does schedule a retry of the submission
(after retryDelay times one milliseconds) instead of stopping for good. -/
theorem alreadyVoted_schedules_retry_cx :
    (submitVoteStep ({} : ServiceState) reqFixed (envOf "id1" alreadyVotedChain)).response.error
      = some "You have already voted in this election on the blockchain" ∧
    (submitVoteStep ({} : ServiceState) reqFixed (envOf "id1" alreadyVotedChain)).retryScheduledAfter
      = some 5000 := by
  constructor
  · decide
  · decide

/-- C2 as amended: when the ledger duplicate check reports true, the attempt
fails with the already-voted error, performs no ledger transaction, and the
record is marked failed; but the coordinator treats the error like any
other and schedules a retry whenever the stored retry count is below
maxRetries, rather than failing terminally with no retry. -/
theorem alreadyVoted_fails_and_schedules_retry
    (st : ServiceState) (req : VoteSubmissionRequest) (env : AttemptEnv)
    (ca pk addr : String)
    (hval : validateSubmission req env.validation = .valid)
    (h1 : env.chain.electionFetchOk = true)
    (hca : env.chain.contractAddress = some ca)
    (h2 : env.chain.profileFetchOk = true)
    (hpk : env.chain.encryptedPrivateKey = some pk)
    (hcw : env.chain.connectWallet = .ok addr)
    (h3 : env.chain.hasVotedOnBlockchain = true)
    (hr : (lookupKey env.newId st.retryAttempts).getD 0 < st.maxRetries) :
    (submitVoteStep st req env).response.error
      = some "You have already voted in this election on the blockchain" ∧
    ((lookupKey env.newId (submitVoteStep st req env).state.statusCache).map (fun s => s.status)
      = some SubmissionStatus.failed) ∧
    (∀ b, LedgerEvent.registerVoterTx b ∉ (submitVoteStep st req env).ledgerEvents) ∧
    (∀ b, LedgerEvent.castVoteTx b ∉ (submitVoteStep st req env).ledgerEvents) ∧
    (submitVoteStep st req env).retryScheduledAfter
      = some (st.retryDelay * ((lookupKey env.newId st.retryAttempts).getD 0 + 1)) := by
  have hchain : submitToBlockchain req env.chain =
      ({ success := false,
         error := some "You have already voted in this election on the blockchain" },
       [LedgerEvent.hasVotedQuery true]) := by
    unfold submitToBlockchain
    simp [h1, hca, h2, hpk, hcw, h3]
  refine ⟨?_, ?_, ?_, ?_, ?_⟩
  · simp [submitVoteStep, hval, hchain, handleFailure, hr]
  · simp [submitVoteStep, hval, hchain, handleFailure, hr,
      lookupKey_updateStatus_self, lookupKey_setKey_self]
  · intro b
    simp [submitVoteStep, hval, hchain, handleFailure, hr]
  · intro b
    simp [submitVoteStep, hval, hchain, handleFailure, hr]
  · simp [submitVoteStep, hval, hchain, handleFailure, hr]

/-- Witness for alreadyVoted_fails_and_schedules_retry at the concrete
already-voted environment. -/
theorem alreadyVoted_fails_and_schedules_retry_witness :
    (submitVoteStep ({} : ServiceState) reqFixed (envOf "id1" alreadyVotedChain)).response.error
      = some "You have already voted in this election on the blockchain" ∧
    (submitVoteStep ({} : ServiceState) reqFixed (envOf "id1" alreadyVotedChain)).retryScheduledAfter
      = some 5000 :=
  ⟨(alreadyVoted_fails_and_schedules_retry {} reqFixed (envOf "id1" alreadyVotedChain)
      "0xC" "k" "0xA" (by decide) rfl rfl rfl rfl rfl rfl (by decide)).1,
   (alreadyVoted_fails_and_schedules_retry {} reqFixed (envOf "id1" alreadyVotedChain)
      "0xC" "k" "0xA" (by decide) rfl rfl rfl rfl rfl rfl (by decide)).2.2.2.2⟩

/-- First submission of the C1 scenario: healthy environment, fresh id. -/
def run1 : SubmissionOutcome := submitVoteStep {} reqFixed (envOf "id1" okChain)

/-- Chain environment of the second submission of the C1 scenario: the
duplicate-vote query is the real hasVoterVoted evaluated on a probe whose
RPC call throws, so the ledger answer is masked to false. -/
def maskedChain : ChainEnv :=
  { okChain with hasVotedOnBlockchain := hasVoterVoted probeConnRefused "0xC" "0xA" }

/-- Second submission of the C1 scenario, for the same pair of election id
and voter id, after the first reached confirmed. -/
def run2 : SubmissionOutcome := submitVoteStep run1.state reqFixed (envOf "id2" maskedChain)

/-- C1 fails on the code: the database duplicate check is a stub that
returns false for every pair, so a second submitVote for a pair that
already has a confirmed record does not fail validation with an
already-voted error; when the ledger duplicate query is masked to false by
an RPC error, both submissions for the same pair reach confirmed. -/
theorem checkExistingVote_stub_allows_second_confirm :
    (∀ electionId voterId, checkExistingVote electionId voterId = false) ∧
    run1.response.success = true ∧
    run2.response.success = true ∧
    (lookupKey "id1" run2.state.statusCache).map (fun s => s.status)
      = some SubmissionStatus.confirmed ∧
    (lookupKey "id2" run2.state.statusCache).map (fun s => s.status)
      = some SubmissionStatus.confirmed := by
  refine ⟨fun _ _ => rfl, ?_, ?_, ?_, ?_⟩
  · decide
  · decide
  · decide
  · decide

/-- Attempt environment of one retry in the always-failing scenario. -/
def failVoteEnv (sid : String) : AttemptEnv := envOf sid failChain

/-- Distinct six character style random suffixes, one per attempt, standing
for the Math.random suffix of generateSubmissionId. -/
def wSuffix (n : Nat) : String := String.mk (List.replicate (n + 1) 'a')

/-- Submission id of the n-th attempt: generateSubmissionId applied to the
fixed request timestamp and the n-th random suffix. -/
def wIds (n : Nat) : String := generateSubmissionId 0 (wSuffix n)

theorem wSuffix_inj (m k : Nat) (h : wSuffix m = wSuffix k) : m = k := by
  unfold wSuffix at h
  injection h with hd
  have hlen := congrArg List.length hd
  simp [List.length_replicate] at hlen
  exact hlen

theorem wIds_inj (m k : Nat) (hmk : m ≠ k) : wIds m ≠ wIds k := by
  intro h
  exact hmk (wSuffix_inj m k (generateSubmissionId_suffix_inj 0 _ _ h))

/-- The attempt sequence the code produces for one request whose ledger
step always fails: attempt zero is the submitVote call, and each scheduled
retry re-runs submitVote on the queued request, generating a fresh id. -/
def retryRun : Nat → SubmissionOutcome
  | 0 => submitVoteStep {} reqFixed (failVoteEnv (wIds 0))
  | n + 1 => submitVoteStep (retryRun n).state reqFixed (failVoteEnv (wIds (n + 1)))

/-- One always-failing attempt whose generated id carries no retry counter
yet: it schedules a retry after 5000 ms, sets the counter for the fresh id
to one, keeps the limits, and leaves the request in the queue. -/
theorem failStep_char (st : ServiceState) (sid : String)
    (hmr : st.maxRetries = 3) (hrd : st.retryDelay = 5000)
    (hnone : lookupKey sid st.retryAttempts = none) :
    (submitVoteStep st reqFixed (failVoteEnv sid)).retryScheduledAfter = some 5000 ∧
    (submitVoteStep st reqFixed (failVoteEnv sid)).state.retryAttempts
      = setKey sid 1 st.retryAttempts ∧
    (submitVoteStep st reqFixed (failVoteEnv sid)).state.maxRetries = 3 ∧
    (submitVoteStep st reqFixed (failVoteEnv sid)).state.retryDelay = 5000 ∧
    lookupKey sid (submitVoteStep st reqFixed (failVoteEnv sid)).state.submissionQueue
      = some reqFixed := by
  have hval : validateSubmission reqFixed valEnv0 = .valid := by decide
  have hchain : submitToBlockchain reqFixed failChain =
      ({ success := false, error := some "Failed to get election details" }, []) := by decide
  refine ⟨?_, ?_, ?_, ?_, ?_⟩ <;>
    simp [submitVoteStep, failVoteEnv, envOf, hval, hchain, handleFailure,
      hnone, hmr, hrd, lookupKey_setKey_self]

/-- Invariant of the always-failing attempt sequence: limits are preserved,
ids of later attempts carry no counter yet, every attempt schedules a
retry, and the request stays queued under the current id. -/
theorem retryRun_inv (n : Nat) :
    (retryRun n).state.maxRetries = 3 ∧
    (retryRun n).state.retryDelay = 5000 ∧
    (∀ k, n < k → lookupKey (wIds k) (retryRun n).state.retryAttempts = none) ∧
    (retryRun n).retryScheduledAfter = some 5000 ∧
    lookupKey (wIds n) (retryRun n).state.submissionQueue = some reqFixed := by
  induction n with
  | zero =>
    have h := failStep_char {} (wIds 0) rfl rfl rfl
    refine ⟨h.2.2.1, h.2.2.2.1, ?_, h.1, h.2.2.2.2⟩
    intro k hk
    have hre : (retryRun 0).state.retryAttempts = setKey (wIds 0) 1 [] := h.2.1
    rw [hre, lookupKey_setKey_ne _ _ (wIds_inj k 0 (by omega))]
    rfl
  | succ n ih =>
    obtain ⟨hmr, hrd, hfresh, _, _⟩ := ih
    have hnone : lookupKey (wIds (n + 1)) (retryRun n).state.retryAttempts = none :=
      hfresh (n + 1) (by omega)
    have h := failStep_char (retryRun n).state (wIds (n + 1)) hmr hrd hnone
    refine ⟨h.2.2.1, h.2.2.2.1, ?_, h.1, h.2.2.2.2⟩
    intro k hk
    have hre : (retryRun (n + 1)).state.retryAttempts
        = setKey (wIds (n + 1)) 1 (retryRun n).state.retryAttempts := h.2.1
    rw [hre, lookupKey_setKey_ne _ _ (wIds_inj k (n + 1) (by omega))]
    exact hfresh k (by omega)

/-- C3 fails on the code: every attempt of an always-failing submission
generates a fresh submission id, so its retry counter restarts at zero,
every attempt schedules another retry after 5000 ms, and the scheduled
retrySubmission finds the queued request and produces the next attempt;
the maxRetries bound of three never takes effect and the request never
reaches a terminal state with no retry scheduled. -/
theorem retry_never_terminates (n : Nat) :
    (retryRun n).retryScheduledAfter = some 5000 ∧
    retrySubmission (retryRun n).state (wIds n) (failVoteEnv (wIds (n + 1)))
      = some (retryRun (n + 1)) := by
  obtain ⟨_, _, _, hsched, hq⟩ := retryRun_inv n
  refine ⟨hsched, ?_⟩
  unfold retrySubmission
  rw [hq]
  rfl

/-- Counterexample to C4 as stated: after a retryable failure (backend
election fetch down) with retry count zero, the record status is failed,
not pending, even though a retry is scheduled. -/
theorem status_failed_not_pending_cx :
    ((lookupKey "cx4" (submitVoteStep ({} : ServiceState) reqFixed
        (envOf "cx4" failChain)).state.statusCache).map (fun s => s.status)
      = some SubmissionStatus.failed) ∧
    ((lookupKey "cx4" (submitVoteStep ({} : ServiceState) reqFixed
        (envOf "cx4" failChain)).state.statusCache).map (fun s => s.status)
      ≠ some SubmissionStatus.pending) ∧
    (submitVoteStep ({} : ServiceState) reqFixed (envOf "cx4" failChain)).retryScheduledAfter
      = some 5000 := by
  refine ⟨?_, ?_, ?_⟩ <;> decide

/-- C4 as amended: on any failure with stored retry count r below
maxRetries, the catch block marks the record failed (it does not return it
to pending), schedules the next attempt after exactly retryDelay times
(r plus one) milliseconds with retryDelay 5000, and stores r plus one; the
code applies this to every error, not only retryable ones. -/
theorem failed_attempt_backoff (st : ServiceState) (sid msg : String)
    (evs : List LedgerEvent) (cur : VoteSubmissionStatus) (r : Nat)
    (hcur : lookupKey sid st.statusCache = some cur)
    (hr : lookupKey sid st.retryAttempts = some r)
    (hlt : r < st.maxRetries)
    (hd : st.retryDelay = 5000) :
    ((lookupKey sid (handleFailure st sid msg evs).state.statusCache).map (fun s => s.status)
      = some SubmissionStatus.failed) ∧
    (handleFailure st sid msg evs).retryScheduledAfter = some (5000 * (r + 1)) ∧
    lookupKey sid (handleFailure st sid msg evs).state.retryAttempts = some (r + 1) := by
  refine ⟨?_, ?_, ?_⟩ <;>
    simp [handleFailure, hr, hlt, hd, hcur,
      lookupKey_updateStatus_self, lookupKey_setKey_self]

/-- Service state holding one processing record with one prior retry. -/
def stBackoff : ServiceState :=
  { submissionQueue := [("s1", reqFixed)],
    statusCache := [("s1", { voteId := "s1", status := SubmissionStatus.processing,
                             submittedAt := 0 })],
    retryAttempts := [("s1", 1)] }

/-- Witness for failed_attempt_backoff at r equal to one: the next delay is
10000 ms and the stored counter becomes two. -/
theorem failed_attempt_backoff_witness :
    ((lookupKey "s1" (handleFailure stBackoff "s1" "network timeout" []).state.statusCache).map
        (fun s => s.status) = some SubmissionStatus.failed) ∧
    (handleFailure stBackoff "s1" "network timeout" []).retryScheduledAfter = some 10000 ∧
    lookupKey "s1" (handleFailure stBackoff "s1" "network timeout" []).state.retryAttempts
      = some 2 :=
  failed_attempt_backoff stBackoff "s1" "network timeout" []
    { voteId := "s1", status := SubmissionStatus.processing, submittedAt := 0 } 1
    rfl rfl (by decide) rfl

/-- Service state with a submission for the pair of reqFixed mid-flight. -/
def stInflight : ServiceState :=
  { submissionQueue := [("id1", reqFixed)],
    statusCache := [("id1", { voteId := "id1", status := SubmissionStatus.processing,
                              submittedAt := 0 })] }

/-- Counterexample to C6 as stated: with a submission for the same pair of
election id and voter id mid-flight (processing), a second submitVote for
that pair is not rejected with a DuplicateInFlight failure: it succeeds
and its own record reaches confirmed while the first stays processing. -/
theorem second_submission_not_rejected_cx :
    (submitVoteStep stInflight reqFixed (envOf "id2" okChain)).response.success = true ∧
    ((lookupKey "id2" (submitVoteStep stInflight reqFixed
        (envOf "id2" okChain)).state.statusCache).map (fun s => s.status)
      = some SubmissionStatus.confirmed) ∧
    ((lookupKey "id1" (submitVoteStep stInflight reqFixed
        (envOf "id2" okChain)).state.statusCache).map (fun s => s.status)
      = some SubmissionStatus.processing) := by
  refine ⟨?_, ?_, ?_⟩ <;> decide

/-- C6 as amended: submitVote never consults the queue for other
submissions of the same pair; a subsequent call while one is in flight is
enqueued under its fresh id, processed independently to confirmed when the
collaborators succeed, and the records of every other id are untouched. -/
theorem second_submission_processed_independently
    (st : ServiceState) (req : VoteSubmissionRequest) (env : AttemptEnv)
    (ca pk addr : String)
    (hval : validateSubmission req env.validation = .valid)
    (h1 : env.chain.electionFetchOk = true)
    (hca : env.chain.contractAddress = some ca)
    (h2 : env.chain.profileFetchOk = true)
    (hpk : env.chain.encryptedPrivateKey = some pk)
    (hcw : env.chain.connectWallet = .ok addr)
    (h3 : env.chain.hasVotedOnBlockchain = false)
    (h4 : env.chain.isRegistered = true)
    (hparse : (jsParseInt req.candidateId).isNone = false)
    (hcast : env.chain.castVoteResult.success = true)
    (hback : env.backendRandomAbove = true) :
    (submitVoteStep st req env).response.success = true ∧
    ((lookupKey env.newId (submitVoteStep st req env).state.statusCache).map (fun s => s.status)
      = some SubmissionStatus.confirmed) ∧
    (∀ sid, sid ≠ env.newId →
      lookupKey sid (submitVoteStep st req env).state.statusCache
          = lookupKey sid st.statusCache ∧
        lookupKey sid (submitVoteStep st req env).state.submissionQueue
          = lookupKey sid st.submissionQueue) := by
  have hchain : submitToBlockchain req env.chain =
      ({ success := true, transactionHash := env.chain.castVoteResult.transactionHash,
         blockNumber := env.chain.castVoteResult.blockNumber },
       [LedgerEvent.hasVotedQuery false, LedgerEvent.isRegisteredQuery true,
        LedgerEvent.castVoteTx true]) := by
    unfold submitToBlockchain castPhase
    simp [h1, hca, h2, hpk, hcw, h3, h4, hparse, hcast]
  refine ⟨?_, ?_, ?_⟩
  · simp [submitVoteStep, hval, hchain, submitToBackend, hback]
  · simp [submitVoteStep, hval, hchain, submitToBackend, hback,
      lookupKey_updateStatus_self, lookupKey_setKey_self, lookupKey_delKey_self]
  · intro sid hsid
    constructor
    · simp [submitVoteStep, hval, hchain, submitToBackend, hback,
        lookupKey_updateStatus_ne _ _ _ hsid, lookupKey_setKey_ne _ _ hsid,
        lookupKey_delKey_ne _ hsid]
    · simp [submitVoteStep, hval, hchain, submitToBackend, hback,
        lookupKey_setKey_ne _ _ hsid, lookupKey_delKey_ne _ hsid]

/-- Witness for second_submission_processed_independently at the concrete
in-flight state: the second call succeeds and the first queue entry is
exactly what it was. -/
theorem second_submission_processed_independently_witness :
    (submitVoteStep stInflight reqFixed (envOf "id2" okChain)).response.success = true ∧
    lookupKey "id1" (submitVoteStep stInflight reqFixed
        (envOf "id2" okChain)).state.submissionQueue
      = lookupKey "id1" stInflight.submissionQueue :=
  ⟨(second_submission_processed_independently stInflight reqFixed (envOf "id2" okChain)
      "0xC" "k" "0xA" (by decide) rfl rfl rfl rfl rfl rfl rfl (by decide) rfl rfl).1,
   ((second_submission_processed_independently stInflight reqFixed (envOf "id2" okChain)
      "0xC" "k" "0xA" (by decide) rfl rfl rfl rfl rfl rfl rfl (by decide) rfl rfl).2.2
      "id1" (by decide)).2⟩

/-- Attempt environment whose validation clock is past the five minute
window of the fixed request. -/
def envExpired : AttemptEnv :=
  { envOf "id7" okChain with validation := { valEnv0 with now := 300001 } }

/-- Counterexample to C7 as stated: an expired request is rejected at
validation, but the failure is not terminal: a retry is scheduled. -/
theorem expired_request_retry_scheduled_cx :
    (submitVoteStep ({} : ServiceState) reqFixed envExpired).response.error
      = some "Submission expired" ∧
    (submitVoteStep ({} : ServiceState) reqFixed envExpired).ledgerEvents = [] ∧
    (submitVoteStep ({} : ServiceState) reqFixed envExpired).retryScheduledAfter
      = some 5000 := by
  refine ⟨?_, ?_, ?_⟩ <;> decide

/-- C7 as amended: a request older than five minutes (whose other field
checks pass) is rejected at validation with Submission expired and the
attempt performs no ledger interaction, so submitToBlockchain is never
reached; but the record is marked failed and a retry is scheduled while
the stored retry count is below maxRetries, instead of the failure being
terminal with no retry. -/
theorem expired_request_no_ledger_but_retry
    (st : ServiceState) (req : VoteSubmissionRequest) (env : AttemptEnv)
    (hf1 : ¬(req.electionId = "" ∨ req.candidateId = "" ∨ req.voterId = ""))
    (hf2 : ¬(req.verificationCode = "" ∨ req.verificationCode.length ≠ 6))
    (hf3 : ¬(req.biometricHash = "" ∨ req.deviceId = ""))
    (hex : env.validation.now - req.timestamp > 5 * 60 * 1000) :
    (submitVoteStep st req env).response.error = some "Submission expired" ∧
    (submitVoteStep st req env).ledgerEvents = [] ∧
    ((lookupKey env.newId (submitVoteStep st req env).state.statusCache).map (fun s => s.status)
      = some SubmissionStatus.failed) ∧
    ((lookupKey env.newId st.retryAttempts).getD 0 < st.maxRetries →
      (submitVoteStep st req env).retryScheduledAfter
        = some (st.retryDelay * ((lookupKey env.newId st.retryAttempts).getD 0 + 1))) := by
  have hval : validateSubmission req env.validation = .invalid "Submission expired" := by
    unfold validateSubmission
    rw [if_neg hf1, if_neg hf2, if_neg hf3, if_pos hex]
  by_cases hrc : (lookupKey env.newId st.retryAttempts).getD 0 < st.maxRetries
  · refine ⟨?_, ?_, ?_, fun _ => ?_⟩ <;>
      simp [submitVoteStep, hval, handleFailure, hrc,
        lookupKey_updateStatus_self, lookupKey_setKey_self]
  · refine ⟨?_, ?_, ?_, fun h => absurd h hrc⟩ <;>
      simp [submitVoteStep, hval, handleFailure, hrc,
        lookupKey_updateStatus_self, lookupKey_setKey_self]

/-- Witness for expired_request_no_ledger_but_retry at the concrete expired
environment. -/
theorem expired_request_no_ledger_but_retry_witness :
    (submitVoteStep ({} : ServiceState) reqFixed envExpired).response.error
      = some "Submission expired" ∧
    (submitVoteStep ({} : ServiceState) reqFixed envExpired).ledgerEvents = [] :=
  ⟨(expired_request_no_ledger_but_retry {} reqFixed envExpired
      (by decide) (by decide) (by decide) (by decide)).1,
   (expired_request_no_ledger_but_retry {} reqFixed envExpired
      (by decide) (by decide) (by decide) (by decide)).2.1⟩

/-- Counterexample to C8 as stated: two submitToBackend calls with the same
request and the same transaction hash made at different Date.now values
yield different confirmation ids. -/
theorem backend_confirmation_time_dependent_cx :
    (submitToBackend reqFixed "0xT1" 0 true).confirmationId = some "confirm_0_12" ∧
    (submitToBackend reqFixed "0xT1" 1 true).confirmationId = some "confirm_1_12" ∧
    (submitToBackend reqFixed "0xT1" 0 true).confirmationId
      ≠ (submitToBackend reqFixed "0xT1" 1 true).confirmationId := by
  refine ⟨?_, ?_, ?_⟩ <;> decide

/-- C8 as amended: submitToBackend builds its confirmation id from Date.now
and the candidate id only, so two calls agree exactly when they observe the
same clock value, whatever the election id, voter id or transaction hash;
the function records nothing, so no deduplication on the triple of election
id, voter id and transaction hash takes place. -/
theorem backend_confirmation_id_shape (req req' : VoteSubmissionRequest)
    (tx tx' : String) (now : Int)
    (hc : req.candidateId = req'.candidateId) :
    (submitToBackend req tx now true).success = true ∧
    (submitToBackend req tx now true).confirmationId
      = some ("confirm_" ++ toString now ++ "_" ++ req.candidateId) ∧
    (submitToBackend req tx now true).confirmationId
      = (submitToBackend req' tx' now true).confirmationId := by
  refine ⟨rfl, rfl, ?_⟩
  simp [submitToBackend, hc]

/-- Witness for backend_confirmation_id_shape: same clock, different
transaction hashes, same confirmation id. -/
theorem backend_confirmation_id_shape_witness :
    (submitToBackend reqFixed "0xT1" 0 true).confirmationId
      = some ("confirm_" ++ toString (0 : Int) ++ "_" ++ reqFixed.candidateId) ∧
    (submitToBackend reqFixed "0xT1" 0 true).confirmationId
      = (submitToBackend reqFixed "0xT2" 0 true).confirmationId :=
  ⟨(backend_confirmation_id_shape reqFixed reqFixed "0xT1" "0xT2" 0 rfl).2.1,
   (backend_confirmation_id_shape reqFixed reqFixed "0xT1" "0xT2" 0 rfl).2.2⟩

/-- Counterexample to C9 as stated: cancelling a submission that is
mid-flight (status processing, still in the submission queue) succeeds and
marks the record rejected, instead of failing and leaving it unchanged. -/
theorem cancel_processing_succeeds_cx :
    (cancelSubmission stInflight "id1").2 = true ∧
    ((lookupKey "id1" (cancelSubmission stInflight "id1").1.statusCache).map (fun s => s.status)
      = some SubmissionStatus.rejected) ∧
    ((lookupKey "id1" stInflight.statusCache).map (fun s => s.status)
      = some SubmissionStatus.processing) := by
  refine ⟨?_, ?_, ?_⟩ <;> decide

/-- C9 as amended: cancelSubmission succeeds exactly when the id is still
in the submission queue, which covers pending, processing and
failed-awaiting-retry records, not only pending ones; on success it removes
the queue entry and the retry counter and marks the cached record rejected,
and when the id is absent it returns false and leaves the state unchanged. -/
theorem cancel_iff_in_queue (st : ServiceState) (vid : String) :
    ((cancelSubmission st vid).2 = (lookupKey vid st.submissionQueue).isSome) ∧
    (lookupKey vid st.submissionQueue = none → cancelSubmission st vid = (st, false)) ∧
    (∀ req, lookupKey vid st.submissionQueue = some req →
      lookupKey vid (cancelSubmission st vid).1.submissionQueue = none ∧
      lookupKey vid (cancelSubmission st vid).1.retryAttempts = none ∧
      lookupKey vid (cancelSubmission st vid).1.statusCache
        = (lookupKey vid st.statusCache).map
            (fun s => { s with status := SubmissionStatus.rejected })) := by
  refine ⟨?_, ?_, ?_⟩
  · unfold cancelSubmission
    cases h : lookupKey vid st.submissionQueue <;> simp [h]
  · intro h
    unfold cancelSubmission
    simp [h]
  · intro req h
    unfold cancelSubmission
    simp [h, lookupKey_delKey_self, lookupKey_updateStatus_self]

/-- Witness for cancel_iff_in_queue at the concrete in-flight state. -/
theorem cancel_iff_in_queue_witness :
    ((cancelSubmission stInflight "id1").2
      = (lookupKey "id1" stInflight.submissionQueue).isSome) ∧
    lookupKey "id1" (cancelSubmission stInflight "id1").1.submissionQueue = none :=
  ⟨(cancel_iff_in_queue stInflight "id1").1,
   ((cancel_iff_in_queue stInflight "id1").2.2 reqFixed rfl).1⟩

end VoteApp
